import Mathlib

/-!
Shallow embedding of `python/ray/tune/suggest/optuna.py` (the `OptunaSearch`
searcher): search-space translation (`convert_search_space` / `resolve_value`),
the trial lifecycle operations (`suggest`, `on_trial_result`,
`on_trial_complete`, `set_search_properties`, `setup_study`) and
checkpointing (`save` / `restore`).

Numeric parameter values are modelled as rationals (the Python floats carry no
float-specific behaviour in this layer: bounds and quantization steps are only
passed through to the sampler).  External collaborators that are not part of
the repository source (the `ray.tune.sample` domain classes, `parse_spec_vars`,
the optuna storage/sampler/trial objects, and `pickle`) are modelled from the
spec; their definitions say so in their doc comments.
-/

set_option autoImplicit false

namespace RayOptuna

/-- Modelled from the spec: the sampling-distribution tag of a Domain
(`ray.tune.sample` is outside `src/`).  A distribution is `Uniform` or
`LogUniform`, optionally composed with a `Quantized` wrapper carrying the
quantization step `q` (spec section 3). -/
inductive Sampler where
  | uniform : Sampler
  | logUniform : Sampler
  | quantized (sampler : Sampler) (q : ℚ) : Sampler
  deriving Repr, DecidableEq

/-- The Python class name of a sampler object, as used by the
`type(domain.sampler).__name__` interpolation in `resolve_value`'s error. -/
def Sampler.typeName : Sampler → String
  | .uniform => "Uniform"
  | .logUniform => "LogUniform"
  | .quantized _ _ => "Quantized"

/-- A sampler that is a plain base distribution, not a `Quantized` wrapper. -/
def Sampler.isBase : Sampler → Bool
  | .uniform => true
  | .logUniform => true
  | .quantized _ _ => false

/-- Modelled from the spec: a typed parameter Domain (`ray.tune.sample` is
outside `src/`).  `Float`/`Integer` carry bounds and a sampler; `Categorical`
carries the ordered candidate list (candidates modelled as rationals) and a
sampler (spec section 3). -/
inductive Domain where
  | float (lower upper : ℚ) (sampler : Sampler) : Domain
  | integer (lower upper : ℤ) (sampler : Sampler) : Domain
  | categorical (categories : List ℚ) (sampler : Sampler) : Domain
  deriving Repr, DecidableEq

/-- The Python class name of the domain, as used by the
`type(domain).__name__` interpolation in `resolve_value`'s error. -/
def Domain.typeName : Domain → String
  | .float _ _ _ => "Float"
  | .integer _ _ _ => "Integer"
  | .categorical _ _ => "Categorical"

/-- The `domain.sampler` attribute. -/
def Domain.sampler : Domain → Sampler
  | .float _ _ s => s
  | .integer _ _ s => s
  | .categorical _ s => s

/-- `domain.get_sampler()`: in the spec's data model every Domain carries its
distribution tag, so this returns the stored sampler. -/
def Domain.get_sampler (d : Domain) : Sampler := d.sampler

/-- Spec-conformant Domains (spec section 3 invariants): a `Quantized` wrapper
only wraps a base distribution and has a strictly positive step, and it only
composes with Float/Integer distributions. -/
def Domain.specValid : Domain → Prop
  | .float _ _ s | .integer _ _ s =>
    match s with
    | .quantized inner q => inner.isBase = true ∧ 0 < q
    | _ => True
  | .categorical _ s => s.isBase = true

instance : DecidablePred Domain.specValid := by
  intro d
  unfold Domain.specValid
  cases d with
  | float lo hi s => cases s <;> exact inferInstanceAs (Decidable _)
  | integer lo hi s => cases s <;> exact inferInstanceAs (Decidable _)
  | categorical cs s => exact inferInstanceAs (Decidable _)

/-- One suggestion request, the `(fn, args, kwargs)` tuples built through the
`param` helper in `resolve_value`, reframed as a closed variant type (one
constructor per generated `suggest_*` call; `suggest_int` appears twice
because the source generates it once with `log=True` and once with a
`step` keyword). -/
inductive SuggestionRequest where
  | suggest_loguniform (name : String) (lower upper : ℚ) : SuggestionRequest
  | suggest_discrete_uniform (name : String) (lower upper q : ℚ) : SuggestionRequest
  | suggest_uniform (name : String) (lower upper : ℚ) : SuggestionRequest
  | suggest_int_log (name : String) (lower upper : ℤ) : SuggestionRequest
  | suggest_int_step (name : String) (lower upper : ℤ) (step : ℚ) : SuggestionRequest
  | suggest_categorical (name : String) (categories : List ℚ) : SuggestionRequest
  deriving Repr, DecidableEq

/-- The parameter name of a request: the first positional argument of every
generated `suggest_*` call (`args[0]` in `suggest`'s dict comprehension). -/
def SuggestionRequest.name : SuggestionRequest → String
  | .suggest_loguniform n _ _ => n
  | .suggest_discrete_uniform n _ _ _ => n
  | .suggest_uniform n _ _ => n
  | .suggest_int_log n _ _ => n
  | .suggest_int_step n _ _ _ => n
  | .suggest_categorical n _ => n

/-- Errors raised during search-space conversion (both are `ValueError` in the
source; we keep them apart by payload). -/
inductive ConvErr where
  | gridSearchUnsupported : ConvErr
  | unsupportedSpace (domainType samplerType : String) : ConvErr
  deriving Repr, DecidableEq

/-- Modelled from the spec: one entry of the flattened spec mapping as
classified by `parse_spec_vars` (outside `src/`): a resolved constant, a
Domain variable, or a grid-search (exhaustive) variable. -/
inductive SpecEntry where
  | resolved (v : ℚ) : SpecEntry
  | domain (d : Domain) : SpecEntry
  | gridSearch (values : List ℚ) : SpecEntry
  deriving Repr, DecidableEq

/-- Python truthiness of the `quantize` local in `resolve_value`
(`None` and `0` are falsy). -/
def quantTruthy : Option ℚ → Bool
  | none => false
  | some q => q != 0

/-- The `quantize or 1` expression in `resolve_value` (Python `or` replaces a
falsy left operand with the right one). -/
def quantOrOne : Option ℚ → ℚ
  | none => 1
  | some q => if q = 0 then 1 else q

/-- `OptunaSearch.convert_search_space.resolve_value`: unwrap one `Quantized`
wrapper, then dispatch on (domain type, sampler type); unsupported pairings
raise a `ValueError` naming `type(domain).__name__` and
`type(domain.sampler).__name__`.  The warning logged when quantization is
dropped under log-uniform sampling is I/O and is not modelled. -/
def resolve_value (par : String) (domain : Domain) : Except ConvErr SuggestionRequest :=
  let sampler₀ := domain.get_sampler
  let quantize : Option ℚ :=
    match sampler₀ with
    | .quantized _ q => some q
    | _ => none
  let sampler : Sampler :=
    match sampler₀ with
    | .quantized inner _ => inner
    | s => s
  match domain with
  | .float lower upper _ =>
    match sampler with
    | .logUniform => .ok (.suggest_loguniform par lower upper)
    | .uniform =>
      if quantTruthy quantize then
        .ok (.suggest_discrete_uniform par lower upper (quantOrOne quantize))
      else
        .ok (.suggest_uniform par lower upper)
    | _ => .error (.unsupportedSpace domain.typeName domain.sampler.typeName)
  | .integer lower upper _ =>
    match sampler with
    | .logUniform => .ok (.suggest_int_log par lower upper)
    | .uniform => .ok (.suggest_int_step par lower upper (quantOrOne quantize))
    | _ => .error (.unsupportedSpace domain.typeName domain.sampler.typeName)
  | .categorical categories _ =>
    match sampler with
    | .uniform => .ok (.suggest_categorical par categories)
    | _ => .error (.unsupportedSpace domain.typeName domain.sampler.typeName)

/-- Modelled from the spec: the `domain_vars` component of
`parse_spec_vars(spec)` (outside `src/`) — the Domain-valued entries, in
mapping order. -/
def domainVars (spec : List (String × SpecEntry)) : List (String × Domain) :=
  spec.filterMap fun pe =>
    match pe.2 with
    | .domain d => some (pe.1, d)
    | _ => none

/-- Modelled from the spec: the `grid_vars` component of
`parse_spec_vars(spec)` (outside `src/`) — the grid-search entries, in
mapping order. -/
def gridVars (spec : List (String × SpecEntry)) : List (String × List ℚ) :=
  spec.filterMap fun pe =>
    match pe.2 with
    | .gridSearch vs => some (pe.1, vs)
    | _ => none

/-- `OptunaSearch.convert_search_space`: the spec mapping arrives already
flattened (`flatten_dict` is an external collaborator), is partitioned by
`parse_spec_vars` into resolved / domain / grid variables, and then every
domain variable is resolved in order; grid variables make the whole
conversion raise before any resolution. -/
def convert_search_space (spec : List (String × SpecEntry)) :
    Except ConvErr (List SuggestionRequest) :=
  if (domainVars spec).isEmpty && (gridVars spec).isEmpty then
    .ok []
  else if !(gridVars spec).isEmpty then
    .error .gridSearchUnsupported
  else
    (domainVars spec).mapM fun pd => resolve_value pd.1 pd.2

/-- `ray.tune.result.TRAINING_ITERATION`, the step key read by
`on_trial_result`. -/
def TRAINING_ITERATION : String := "training_iteration"

/-- Terminal/active state of an optuna trial (`ot.trial.TrialState`). -/
inductive TrialState where
  | running : TrialState
  | complete : TrialState
  deriving Repr, DecidableEq

/-- Modelled from the spec: optuna's `InMemoryStorage` (outside `src/`) as the
OptimizerAdapter's trial storage — a fresh-handle counter plus write logs for
final values, states and intermediate reports; the most recent write of a key
is the visible one (`List.lookup` finds the first, i.e. newest, entry). -/
structure Storage where
  nextTrialId : ℕ
  values : List (ℕ × Option ℚ)
  states : List (ℕ × TrialState)
  reports : List (ℕ × ℚ × ℚ)
  deriving Repr, DecidableEq

/-- `storage.create_new_trial(study_id)`: allocates a fresh trial id (never
reused) and puts the trial in the running state. -/
def Storage.create_new_trial (s : Storage) (_study_id : ℕ) : ℕ × Storage :=
  (s.nextTrialId,
   { s with
     nextTrialId := s.nextTrialId + 1,
     states := (s.nextTrialId, .running) :: s.states })

/-- `storage.set_trial_value(trial_id, value)` (a `None` value is allowed). -/
def Storage.set_trial_value (s : Storage) (tid : ℕ) (v : Option ℚ) : Storage :=
  { s with values := (tid, v) :: s.values }

/-- `storage.set_trial_state(trial_id, state)`. -/
def Storage.set_trial_state (s : Storage) (tid : ℕ) (st : TrialState) : Storage :=
  { s with states := (tid, st) :: s.states }

/-- The currently visible final value of a trial (`none` if never set). -/
def Storage.trialValue (s : Storage) (tid : ℕ) : Option (Option ℚ) :=
  s.values.lookup tid

/-- The currently visible state of a trial (`none` if the trial id is
unknown). -/
def Storage.trialState (s : Storage) (tid : ℕ) : Option TrialState :=
  s.states.lookup tid

/-- Modelled from the spec: the optuna sampler instance (outside `src/`) as a
deterministic draw stream plus a consumption counter and a log of every
`suggest_*` query made through a trial handle — enough to observe that the
sampler is re-queried, in request order, on every `suggest` call. -/
structure SamplerModel where
  draws : List ℚ
  counter : ℕ
  queryLog : List (ℕ × SuggestionRequest)
  deriving Repr, DecidableEq

/-- One `getattr(ot_trial, fn)(*args, **kwargs)` call in `suggest`'s dict
comprehension: consume the next draw and log the (handle, request) query. -/
def SamplerModel.suggestOne (s : SamplerModel) (handle : ℕ)
    (req : SuggestionRequest) : ℚ × SamplerModel :=
  (s.draws.getD s.counter 0,
   { s with
     counter := s.counter + 1,
     queryLog := s.queryLog ++ [(handle, req)] })

/-- Modelled from the spec: the optuna Study (outside `src/`) — the study id
used by `create_new_trial` and the optimization direction chosen by
`setup_study`. -/
structure Study where
  study_id : ℕ
  direction : String
  deriving Repr, DecidableEq

/-- The mutable state of an `OptunaSearch` instance: the five checkpointed
components (`_storage`, `_pruner`, `_sampler`, `_ot_trials`, `_ot_study`)
plus the search space and the metric/mode properties from the `Searcher`
base class.  `_pruner` is the stateless `NopPruner`, modelled as `Unit`;
`_ot_trials` maps scheduler trial ids to optuna trial ids (Python dicts keep
insertion order, so new entries are appended). -/
structure OptunaSearch where
  space : Option (List SuggestionRequest)
  metric : Option String
  mode : Option String
  sampler : SamplerModel
  pruner : Unit
  storage : Storage
  ot_trials : List (String × ℕ)
  ot_study : Option Study
  deriving Repr, DecidableEq

/-- Python truthiness of `self._space` (`None` and an empty list are falsy). -/
def spaceTruthy : Option (List SuggestionRequest) → Bool
  | none => false
  | some l => !l.isEmpty

/-- Python truthiness of an optional string (`None` and `""` are falsy), used
by `set_search_properties` for `if metric:` / `if mode:`. -/
def strTruthy : Option String → Bool
  | none => false
  | some s => !(s == "")

/-- Errors raised by the lifecycle operations: `RuntimeError` (suggest with no
space), `KeyError` (unknown trial id / missing result key), `AttributeError`
(attribute access on `None`), and a pickle decode failure in `restore`. -/
inductive OpErr where
  | runtimeError : OpErr
  | keyError : OpErr
  | attributeError : OpErr
  | decodeError : OpErr
  deriving Repr, DecidableEq

/-- `OptunaSearch.setup_study(mode)`: create the study on the in-memory
storage with direction `"minimize"` iff `mode == "min"`. -/
def OptunaSearch.setup_study (st : OptunaSearch) (mode : Option String) : OptunaSearch :=
  { st with
    ot_study := some
      { study_id := 0,
        direction := if mode = some "min" then "minimize" else "maximize" } }

/-- `OptunaSearch.set_search_properties(metric, mode, config)`: rejected (with
`False`) when a space already exists; otherwise the config is converted (a
conversion error propagates before any state is written), the properties are
set, and the study is created. -/
def OptunaSearch.set_search_properties (st : OptunaSearch) (metric mode : Option String)
    (config : List (String × SpecEntry)) : Except ConvErr Bool × OptunaSearch :=
  if spaceTruthy st.space then
    (.ok false, st)
  else
    match convert_search_space config with
    | .error e => (.error e, st)
    | .ok space =>
      let st₁ : OptunaSearch :=
        { st with
          space := some space,
          metric := if strTruthy metric then metric else st.metric,
          mode := if strTruthy mode then mode else st.mode }
      (.ok true, st₁.setup_study mode)

/-- One step of `suggest`'s dict comprehension: accumulate
`(parameter name, sampled value)` while threading the sampler. -/
def replayStep (handle : ℕ) (acc : List (String × ℚ) × SamplerModel)
    (req : SuggestionRequest) : List (String × ℚ) × SamplerModel :=
  let r := acc.2.suggestOne handle req
  (acc.1 ++ [(req.name, r.1)], r.2)

/-- `OptunaSearch.suggest(trial_id)`: raise `RuntimeError` when no space is
set; create a fresh trial handle on first sight of `trial_id` (reading
`self._ot_study._study_id`, an `AttributeError` if the study is `None`,
before the storage is touched); then replay every request of the space, in
order, against the handle.  The resulting flat `(name, value)` mapping is
returned; `unflatten_dict` is an external collaborator applied after this
layer. -/
def OptunaSearch.suggest (st : OptunaSearch) (trial_id : String) :
    Except OpErr (List (String × ℚ)) × OptunaSearch :=
  if !spaceTruthy st.space then
    (.error .runtimeError, st)
  else
    let registered : Except OpErr OptunaSearch :=
      match st.ot_trials.lookup trial_id with
      | some _ => .ok st
      | none =>
        match st.ot_study with
        | none => .error .attributeError
        | some study =>
          let r := st.storage.create_new_trial study.study_id
          .ok { st with
                storage := r.2,
                ot_trials := st.ot_trials ++ [(trial_id, r.1)] }
    match registered with
    | .error e => (.error e, st)
    | .ok st₁ =>
      match st₁.ot_trials.lookup trial_id with
      | none => (.error .keyError, st₁)
      | some ot_trial =>
        let acc := (st.space.getD []).foldl (replayStep ot_trial) ([], st₁.sampler)
        (.ok acc.1, { st₁ with sampler := acc.2 })

/-- `result.get(self.metric, None)`: the metric attribute may itself be
`None`, which is never a key of a string-keyed result mapping. -/
def getMetric (metric : Option String) (result : List (String × ℚ)) : Option ℚ :=
  match metric with
  | none => none
  | some m => result.lookup m

/-- `OptunaSearch.on_trial_result(trial_id, result)`: read
`result[self.metric]` and `result[TRAINING_ITERATION]` (each a `KeyError`
when missing), look the trial up, and report the intermediate value. -/
def OptunaSearch.on_trial_result (st : OptunaSearch) (trial_id : String)
    (result : List (String × ℚ)) : Except OpErr Unit × OptunaSearch :=
  match getMetric st.metric result with
  | none => (.error .keyError, st)
  | some metricVal =>
    match result.lookup TRAINING_ITERATION with
    | none => (.error .keyError, st)
    | some step =>
      match st.ot_trials.lookup trial_id with
      | none => (.error .keyError, st)
      | some ot_trial =>
        (.ok (),
         { st with
           storage :=
             { st.storage with
               reports := (ot_trial, metricVal, step) :: st.storage.reports } })

/-- `OptunaSearch.on_trial_complete(trial_id, result=None, error=False)`: look
the trial handle up (`KeyError` when unknown), then evaluate
`result.get(self.metric, None)` — an `AttributeError` when `result` is
`None`, since `None` has no `get` — and write the final value and the
`COMPLETE` state to storage.  The `error` flag is never read. -/
def OptunaSearch.on_trial_complete (st : OptunaSearch) (trial_id : String)
    (result : Option (List (String × ℚ))) (_error : Bool) :
    Except OpErr Unit × OptunaSearch :=
  match st.ot_trials.lookup trial_id with
  | none => (.error .keyError, st)
  | some ot_trial_id =>
    match result with
    | none => (.error .attributeError, st)
    | some res =>
      let v := getMetric st.metric res
      (.ok (),
       { st with
         storage :=
           (st.storage.set_trial_value ot_trial_id v).set_trial_state
             ot_trial_id .complete })

/-- The five-tuple pickled by `save`:
`(self._storage, self._pruner, self._sampler, self._ot_trials,
self._ot_study)`. -/
structure SaveObject where
  storage : Storage
  pruner : Unit
  sampler : SamplerModel
  ot_trials : List (String × ℕ)
  ot_study : Option Study
  deriving Repr, DecidableEq

/-- `OptunaSearch.save(checkpoint_path)`: capture the five components. -/
def OptunaSearch.save (st : OptunaSearch) : SaveObject :=
  ⟨st.storage, st.pruner, st.sampler, st.ot_trials, st.ot_study⟩

/-- Modelled from the spec: the checkpoint blob produced by `pickle` and the
file system (outside `src/`) — either a valid serialization of a save object
or a corrupt blob that fails to deserialize. -/
inductive Blob where
  | valid (obj : SaveObject) : Blob
  | corrupt : Blob
  deriving Repr, DecidableEq

/-- Modelled from the spec: `pickle.load` on the checkpoint file — returns the
stored object or fails with a decode error. -/
def decodeBlob : Blob → Except OpErr SaveObject
  | .valid obj => .ok obj
  | .corrupt => .error .decodeError

/-- Modelled from the spec: `pickle.dump` of the save object. -/
def encodeBlob (obj : SaveObject) : Blob := .valid obj

/-- `save` followed by writing the blob to the checkpoint file. -/
def OptunaSearch.saveBlob (st : OptunaSearch) : Blob := encodeBlob st.save

/-- `OptunaSearch.restore(checkpoint_path)`: `pickle.load` first — on failure
the exception propagates and `self` is untouched — then the tuple is
unpacked into the five components. -/
def OptunaSearch.restore (st : OptunaSearch) (b : Blob) :
    Except OpErr Unit × OptunaSearch :=
  match decodeBlob b with
  | .error e => (.error e, st)
  | .ok obj =>
    (.ok (),
     { st with
       storage := obj.storage,
       pruner := obj.pruner,
       sampler := obj.sampler,
       ot_trials := obj.ot_trials,
       ot_study := obj.ot_study })

/-- A fresh in-memory storage, as built in `__init__`
(`ot.storages.InMemoryStorage()`). -/
def emptyStorage : Storage := ⟨0, [], [], []⟩

/-- A deterministic sampler with draw stream `draws` that has not been
queried yet. -/
def freshSampler (draws : List ℚ) : SamplerModel := ⟨draws, 0, []⟩

/-- A searcher as built by `__init__` with no space argument: no space, no
study, empty trial registry. -/
def freshSearcher : OptunaSearch :=
  ⟨none, none, none, freshSampler [], (), emptyStorage, [], none⟩

/-- A searcher as built by `__init__` from a space list plus metric/mode:
the study exists and the registry is empty. -/
def readySearcher (space : List SuggestionRequest) (metric : String)
    (draws : List ℚ) : OptunaSearch :=
  ⟨some space, some metric, some "min", freshSampler draws, (), emptyStorage,
   [], some ⟨0, "minimize"⟩⟩

/-- A searcher with a two-parameter space whose trial `"t1"` has already been
registered by a first `suggest` call: optuna trial id 0 is running and the
storage's next fresh id is 1. -/
def registeredSearcher : OptunaSearch :=
  ⟨some [.suggest_uniform "a" 6 8, .suggest_uniform "b" 10 20], some "loss",
   some "min", freshSampler [7, 15], (), ⟨1, [], [(0, .running)], []⟩,
   [("t1", 0)], some ⟨0, "minimize"⟩⟩

/-! ## The spec-side resolution table (for the refinement comparison) -/

/-- The resolution table as the spec states it (spec section 4.1), written
from the spec's words and compared against the code's `resolve_value`: the
expected request for every supported (domain type, distribution,
quantization) combination, `none` for unsupported pairings. -/
def specResolutionTable (par : String) : Domain → Option SuggestionRequest
  | .float lower upper .logUniform => some (.suggest_loguniform par lower upper)
  | .float lower upper (.quantized .logUniform _) =>
      some (.suggest_loguniform par lower upper)
  | .float lower upper (.quantized .uniform q) =>
      some (.suggest_discrete_uniform par lower upper q)
  | .float lower upper .uniform => some (.suggest_uniform par lower upper)
  | .integer lower upper .logUniform => some (.suggest_int_log par lower upper)
  | .integer lower upper (.quantized .logUniform _) =>
      some (.suggest_int_log par lower upper)
  | .integer lower upper .uniform => some (.suggest_int_step par lower upper 1)
  | .integer lower upper (.quantized .uniform q) =>
      some (.suggest_int_step par lower upper q)
  | .categorical categories .uniform => some (.suggest_categorical par categories)
  | _ => none

/-! ## Helper lemmas -/

theorem resolve_value_agrees_spec_table (par : String) (d : Domain)
    (hv : d.specValid) :
    (∀ r, specResolutionTable par d = some r → resolve_value par d = .ok r) ∧
    (specResolutionTable par d = none →
      resolve_value par d =
        .error (.unsupportedSpace d.typeName d.sampler.typeName)) := by
  cases d with
  | float lo hi s =>
    cases s with
    | uniform =>
      exact ⟨fun r h => by
        simp only [specResolutionTable, Option.some.injEq] at h
        subst h
        simp [resolve_value, Domain.get_sampler, Domain.sampler, quantTruthy],
        fun h => by simp [specResolutionTable] at h⟩
    | logUniform =>
      exact ⟨fun r h => by
        simp only [specResolutionTable, Option.some.injEq] at h
        subst h
        simp [resolve_value, Domain.get_sampler, Domain.sampler],
        fun h => by simp [specResolutionTable] at h⟩
    | quantized inner q =>
      cases inner with
      | uniform =>
        obtain ⟨-, hq⟩ := hv
        exact ⟨fun r h => by
          simp only [specResolutionTable, Option.some.injEq] at h
          subst h
          simp [resolve_value, Domain.get_sampler, Domain.sampler, quantTruthy,
            quantOrOne, hq.ne', bne_iff_ne],
          fun h => by simp [specResolutionTable] at h⟩
      | logUniform =>
        exact ⟨fun r h => by
          simp only [specResolutionTable, Option.some.injEq] at h
          subst h
          simp [resolve_value, Domain.get_sampler, Domain.sampler],
          fun h => by simp [specResolutionTable] at h⟩
      | quantized a b =>
        obtain ⟨hbase, -⟩ := hv
        simp [Sampler.isBase] at hbase
  | integer lo hi s =>
    cases s with
    | uniform =>
      exact ⟨fun r h => by
        simp only [specResolutionTable, Option.some.injEq] at h
        subst h
        simp [resolve_value, Domain.get_sampler, Domain.sampler, quantOrOne],
        fun h => by simp [specResolutionTable] at h⟩
    | logUniform =>
      exact ⟨fun r h => by
        simp only [specResolutionTable, Option.some.injEq] at h
        subst h
        simp [resolve_value, Domain.get_sampler, Domain.sampler],
        fun h => by simp [specResolutionTable] at h⟩
    | quantized inner q =>
      cases inner with
      | uniform =>
        obtain ⟨-, hq⟩ := hv
        exact ⟨fun r h => by
          simp only [specResolutionTable, Option.some.injEq] at h
          subst h
          simp [resolve_value, Domain.get_sampler, Domain.sampler, quantOrOne,
            hq.ne'],
          fun h => by simp [specResolutionTable] at h⟩
      | logUniform =>
        exact ⟨fun r h => by
          simp only [specResolutionTable, Option.some.injEq] at h
          subst h
          simp [resolve_value, Domain.get_sampler, Domain.sampler],
          fun h => by simp [specResolutionTable] at h⟩
      | quantized a b =>
        obtain ⟨hbase, -⟩ := hv
        simp [Sampler.isBase] at hbase
  | categorical cats s =>
    cases s with
    | uniform =>
      exact ⟨fun r h => by
        simp only [specResolutionTable, Option.some.injEq] at h
        subst h
        simp [resolve_value, Domain.get_sampler, Domain.sampler],
        fun h => by simp [specResolutionTable] at h⟩
    | logUniform =>
      exact ⟨fun r h => by simp [specResolutionTable] at h,
        fun h => by
          simp [resolve_value, Domain.get_sampler, Domain.sampler,
            Domain.typeName, Sampler.typeName]⟩
    | quantized a b => simp [Domain.specValid, Sampler.isBase] at hv

theorem mapM_resolve_eq_filterMap_spec_table (doms : List (String × Domain))
    (hv : ∀ pd ∈ doms, (pd.2 : Domain).specValid)
    (hs : ∀ pd ∈ doms, (specResolutionTable pd.1 pd.2).isSome) :
    (doms.mapM fun pd => resolve_value pd.1 pd.2) =
      .ok (doms.filterMap fun pd => specResolutionTable pd.1 pd.2) := by
  induction doms with
  | nil => rfl
  | cons pd rest ih =>
    obtain ⟨r, hr⟩ := Option.isSome_iff_exists.mp (hs pd (by simp))
    rw [List.mapM_cons,
      (resolve_value_agrees_spec_table pd.1 pd.2 (hv pd (by simp))).1 r hr,
      ih (fun x hx => hv x (by simp [hx])) (fun x hx => hs x (by simp [hx]))]
    simp [List.filterMap_cons, hr]
    rfl

theorem domainVars_of_all_domains (doms : List (String × Domain)) :
    domainVars (doms.map fun pd => (pd.1, SpecEntry.domain pd.2)) = doms := by
  induction doms with
  | nil => rfl
  | cons pd rest ih => simp_all [domainVars]

theorem gridVars_of_all_domains (doms : List (String × Domain)) :
    gridVars (doms.map fun pd => (pd.1, SpecEntry.domain pd.2)) = [] := by
  induction doms with
  | nil => rfl
  | cons pd rest ih => simp_all [gridVars]

theorem lookup_append_of_none {α β : Type} [BEq α] (l₁ l₂ : List (α × β))
    (a : α) (h : l₁.lookup a = none) : (l₁ ++ l₂).lookup a = l₂.lookup a := by
  induction l₁ with
  | nil => rfl
  | cons kv rest ih =>
    rw [List.cons_append]
    rw [List.lookup_cons] at h ⊢
    cases hb : (a == kv.1) with
    | true => rw [hb] at h; simp at h
    | false => rw [hb] at h; simp at h ⊢; exact ih h

theorem foldl_replayStep (handle : ℕ) (space : List SuggestionRequest) :
    ∀ (ps : List (String × ℚ)) (s : SamplerModel),
      ((space.foldl (replayStep handle) (ps, s)).1.map Prod.fst =
        ps.map Prod.fst ++ space.map SuggestionRequest.name) ∧
      ((space.foldl (replayStep handle) (ps, s)).2.counter =
        s.counter + space.length) ∧
      ((space.foldl (replayStep handle) (ps, s)).2.queryLog =
        s.queryLog ++ space.map fun req => (handle, req)) ∧
      ((space.foldl (replayStep handle) (ps, s)).2.draws = s.draws) := by
  induction space with
  | nil => intro ps s; simp
  | cons req rest ih =>
    intro ps s
    obtain ⟨h1, h2, h3, h4⟩ :=
      ih (ps ++ [(req.name, s.draws.getD s.counter 0)])
        { s with counter := s.counter + 1,
                 queryLog := s.queryLog ++ [(handle, req)] }
    refine ⟨?_, ?_, ?_, ?_⟩ <;>
      simp only [List.foldl_cons, replayStep, SamplerModel.suggestOne]
    · rw [h1]; simp
    · rw [h2]; simp; omega
    · rw [h3]; simp
    · exact h4

theorem suggest_existing_trial (st : OptunaSearch) (trial_id : String)
    (handle : ℕ) (hsp : spaceTruthy st.space = true)
    (hreg : st.ot_trials.lookup trial_id = some handle) :
    (st.suggest trial_id).2.ot_trials = st.ot_trials ∧
    (st.suggest trial_id).2.storage = st.storage ∧
    (st.suggest trial_id).2.ot_study = st.ot_study ∧
    (st.suggest trial_id).2.space = st.space ∧
    (st.suggest trial_id).2.sampler =
      ((st.space.getD []).foldl (replayStep handle) ([], st.sampler)).2 ∧
    (st.suggest trial_id).1 =
      .ok ((st.space.getD []).foldl (replayStep handle) ([], st.sampler)).1 := by
  unfold OptunaSearch.suggest
  rw [hsp, hreg]
  simp [hreg]

theorem suggest_new_trial (st : OptunaSearch) (trial_id : String)
    (study : Study) (hsp : spaceTruthy st.space = true)
    (hreg : st.ot_trials.lookup trial_id = none)
    (hstudy : st.ot_study = some study) :
    (st.suggest trial_id).2.ot_trials =
      st.ot_trials ++ [(trial_id, st.storage.nextTrialId)] ∧
    (st.suggest trial_id).2.storage.nextTrialId = st.storage.nextTrialId + 1 ∧
    (st.suggest trial_id).2.ot_study = st.ot_study ∧
    (st.suggest trial_id).2.space = st.space := by
  unfold OptunaSearch.suggest
  rw [hsp, hreg, hstudy]
  have hl : (st.ot_trials ++ [(trial_id, st.storage.nextTrialId)]).lookup
      trial_id = some st.storage.nextTrialId := by
    rw [lookup_append_of_none _ _ _ hreg]
    simp [List.lookup_cons]
  simp [Storage.create_new_trial, hl]

/-! ## Claim theorems -/

/-- C1: for every input mapping of parameter paths to Domains in which each
Domain is a spec-conformant combination, `convert_search_space` produces
exactly the suggestion request that the spec's resolution table specifies for
each Domain (Float+LogUniform gives log-uniform with quantization dropped,
Float+Uniform+quantization gives discrete-uniform with the step,
Float+Uniform gives uniform, Integer+LogUniform gives log-scaled
suggest-int with quantization dropped, Integer+Uniform gives suggest-int
with step the quantization or 1, Categorical+Uniform gives categorical),
and for an unsupported (domain type, distribution) pairing `resolve_value`
fails with an error naming both the domain type and the distribution type. -/
theorem convert_search_space_matches_resolution_table
    (doms : List (String × Domain))
    (hv : ∀ pd ∈ doms, (pd.2 : Domain).specValid) :
    ((∀ pd ∈ doms, (specResolutionTable pd.1 pd.2).isSome) →
      convert_search_space (doms.map fun pd => (pd.1, SpecEntry.domain pd.2)) =
        .ok (doms.filterMap fun pd => specResolutionTable pd.1 pd.2)) ∧
    (∀ pd ∈ doms, specResolutionTable pd.1 pd.2 = none →
      resolve_value pd.1 pd.2 =
        .error (.unsupportedSpace pd.2.typeName pd.2.sampler.typeName)) := by
  constructor
  · intro hs
    unfold convert_search_space
    rw [domainVars_of_all_domains, gridVars_of_all_domains]
    cases doms with
    | nil => rfl
    | cons pd rest =>
      simp only [List.isEmpty_cons, List.isEmpty_nil, Bool.false_and,
        Bool.not_false, if_false, if_true, Bool.false_eq_true, if_neg]
      exact mapM_resolve_eq_filterMap_spec_table (pd :: rest) hv hs
  · intro pd hmem hnone
    exact (resolve_value_agrees_spec_table pd.1 pd.2 (hv pd hmem)).2 hnone

/-- Witness for C1 at concrete inputs: a three-parameter space hitting the
quantized-float, integer-uniform and float-log-uniform rows of the table, and
the unsupported Categorical+LogUniform pairing. -/
theorem convert_search_space_matches_resolution_table_witness :
    convert_search_space
        [("a", SpecEntry.domain (Domain.float 1 2 (Sampler.quantized .uniform 2))),
         ("b", SpecEntry.domain (Domain.integer 1 5 .uniform)),
         ("c", SpecEntry.domain (Domain.float 1 4 .logUniform))] =
      .ok [.suggest_discrete_uniform "a" 1 2 2,
           .suggest_int_step "b" 1 5 1,
           .suggest_loguniform "c" 1 4] ∧
    resolve_value "d" (Domain.categorical [1, 2] .logUniform) =
      .error (.unsupportedSpace "Categorical" "LogUniform") := by
  constructor
  · have h :=
      (convert_search_space_matches_resolution_table
        [("a", Domain.float 1 2 (Sampler.quantized .uniform 2)),
         ("b", Domain.integer 1 5 .uniform),
         ("c", Domain.float 1 4 .logUniform)] (by decide)).1 (by decide)
    rw [show
      ([("a", SpecEntry.domain (Domain.float 1 2 (Sampler.quantized .uniform 2))),
        ("b", SpecEntry.domain (Domain.integer 1 5 .uniform)),
        ("c", SpecEntry.domain (Domain.float 1 4 .logUniform))]) =
      ([("a", Domain.float 1 2 (Sampler.quantized .uniform 2)),
        ("b", Domain.integer 1 5 .uniform),
        ("c", Domain.float 1 4 .logUniform)].map
          fun pd => (pd.1, SpecEntry.domain pd.2)) from rfl, h]
    rfl
  · exact (convert_search_space_matches_resolution_table
      [("d", Domain.categorical [1, 2] .logUniform)] (by decide)).2
      ("d", Domain.categorical [1, 2] .logUniform) (by simp) rfl

/-- C3: a spec mapping containing any grid-search parameter makes
`convert_search_space` fail with the grid-search `ValueError` no matter what
else the mapping contains (in particular the error is raised before any
per-Domain resolution), and `set_search_properties` on a searcher without a
space propagates that error and leaves the searcher unchanged, so no partial
space is ever installed. -/
theorem convert_search_space_rejects_grid
    (spec : List (String × SpecEntry)) (par : String) (vs : List ℚ)
    (hmem : (par, SpecEntry.gridSearch vs) ∈ spec) :
    convert_search_space spec = .error .gridSearchUnsupported ∧
    (∀ (st : OptunaSearch) (metric mode : Option String),
      spaceTruthy st.space = false →
      st.set_search_properties metric mode spec =
        (.error .gridSearchUnsupported, st)) := by
  have hgrid : (par, vs) ∈ gridVars spec :=
    List.mem_filterMap.mpr ⟨(par, SpecEntry.gridSearch vs), hmem, rfl⟩
  have hne : (gridVars spec).isEmpty = false := by
    cases hg : (gridVars spec).isEmpty
    · rfl
    · rw [List.isEmpty_iff] at hg
      rw [hg] at hgrid
      exact absurd hgrid (List.not_mem_nil _)
  have hconv : convert_search_space spec = .error .gridSearchUnsupported := by
    unfold convert_search_space
    simp [hne]
  refine ⟨hconv, fun st metric mode hsp => ?_⟩
  unfold OptunaSearch.set_search_properties
  rw [hsp, hconv]
  rfl

/-- Witness for C3: a two-entry mapping with one ordinary Domain and one
grid-search parameter is rejected, and installing it on a fresh searcher
fails without changing the searcher. -/
theorem convert_search_space_rejects_grid_witness :
    convert_search_space
        [("a", SpecEntry.domain (Domain.float 1 2 .uniform)),
         ("g", SpecEntry.gridSearch [1, 2, 3])] =
      .error .gridSearchUnsupported ∧
    OptunaSearch.set_search_properties freshSearcher
        (some "loss") (some "min")
        [("a", SpecEntry.domain (Domain.float 1 2 .uniform)),
         ("g", SpecEntry.gridSearch [1, 2, 3])] =
      (.error .gridSearchUnsupported, freshSearcher) := by
  have h := convert_search_space_rejects_grid
    [("a", SpecEntry.domain (Domain.float 1 2 .uniform)),
     ("g", SpecEntry.gridSearch [1, 2, 3])] "g" [1, 2, 3] (by simp)
  exact ⟨h.1, h.2 _ (some "loss") (some "min") rfl⟩

/-- C5: `suggest` on a searcher whose space is unset (or empty, which Python
treats the same) raises the `RuntimeError` synchronously and returns the
searcher unchanged — in particular no trial handle is created and the
storage is untouched. -/
theorem suggest_without_space_raises (st : OptunaSearch) (trial_id : String)
    (h : spaceTruthy st.space = false) :
    st.suggest trial_id = (.error .runtimeError, st) := by
  unfold OptunaSearch.suggest
  rw [h]
  rfl

/-- Witness for C5: a fresh searcher with no space. -/
theorem suggest_without_space_raises_witness :
    freshSearcher.suggest "t1" = (.error .runtimeError, freshSearcher) :=
  suggest_without_space_raises freshSearcher "t1" rfl

/-- C6: once a (truthy) space exists, `set_search_properties` is a rejected
no-op — it returns `False` and the searcher, including its space, study,
metric and mode, is returned exactly as it was. -/
theorem set_search_properties_rejected_when_space_exists
    (st : OptunaSearch) (metric mode : Option String)
    (config : List (String × SpecEntry))
    (h : spaceTruthy st.space = true) :
    st.set_search_properties metric mode config = (.ok false, st) := by
  unfold OptunaSearch.set_search_properties
  rw [h]
  rfl

/-- Witness for C6: a searcher that already has a one-request space rejects a
later configuration attempt untouched. -/
theorem set_search_properties_rejected_when_space_exists_witness :
    (readySearcher [.suggest_uniform "a" 6 8] "loss" []).set_search_properties
        (some "acc") (some "max")
        [("b", SpecEntry.domain (Domain.float 1 2 .uniform))] =
      (.ok false, readySearcher [.suggest_uniform "a" 6 8] "loss" []) :=
  set_search_properties_rejected_when_space_exists
    (readySearcher [.suggest_uniform "a" 6 8] "loss" []) (some "acc")
    (some "max") [("b", SpecEntry.domain (Domain.float 1 2 .uniform))] rfl

/-- C7: when decoding the checkpoint fails, `restore` fails as a whole with
the decode error and the searcher is exactly the one from before the call —
each of the five checkpointed components (storage, pruner, sampler, trial
registry, study) is unchanged. -/
theorem restore_decode_failure_leaves_state (st : OptunaSearch) (b : Blob)
    (e : OpErr) (h : decodeBlob b = .error e) :
    st.restore b = (.error e, st) ∧
    (st.restore b).2.storage = st.storage ∧
    (st.restore b).2.pruner = st.pruner ∧
    (st.restore b).2.sampler = st.sampler ∧
    (st.restore b).2.ot_trials = st.ot_trials ∧
    (st.restore b).2.ot_study = st.ot_study := by
  have hr : st.restore b = (.error e, st) := by
    unfold OptunaSearch.restore
    rw [h]
  exact ⟨hr, by rw [hr], by rw [hr], by rw [hr], by rw [hr], by rw [hr]⟩

/-- Witness for C7: restoring a corrupt blob into a populated searcher. -/
theorem restore_decode_failure_leaves_state_witness :
    (readySearcher [.suggest_uniform "a" 6 8] "loss" [7]).restore .corrupt =
      (.error .decodeError, readySearcher [.suggest_uniform "a" 6 8] "loss" [7]) :=
  (restore_decode_failure_leaves_state
    (readySearcher [.suggest_uniform "a" 6 8] "loss" [7]) .corrupt
    .decodeError rfl).1

/-- C8: `restore (save ())` round-trips: it succeeds and reproduces the
original searcher state exactly, so the trial registry, study direction,
sampler and pruning policy are behaviorally indistinguishable from the
original under every subsequent `suggest` / `on_trial_result` /
`on_trial_complete` call. -/
theorem restore_save_roundtrip (st : OptunaSearch) :
    st.restore st.saveBlob = (.ok (), st) ∧
    (∀ trial_id, (st.restore st.saveBlob).2.suggest trial_id =
      st.suggest trial_id) ∧
    (∀ trial_id result, (st.restore st.saveBlob).2.on_trial_result trial_id
      result = st.on_trial_result trial_id result) ∧
    (∀ trial_id result e, (st.restore st.saveBlob).2.on_trial_complete
      trial_id result e = st.on_trial_complete trial_id result e) := by
  have hr : st.restore st.saveBlob = (.ok (), st) := rfl
  exact ⟨hr, fun _ => by rw [hr], fun _ _ => by rw [hr], fun _ _ _ => by rw [hr]⟩

/-- C4: starting from an empty registry, two `suggest` calls with the same
trial id leave exactly one handle in the registry (the second call creates
nothing), and a third call with a distinct trial id gets a handle different
from the first one — handles are never reused across identifiers. -/
theorem suggest_one_handle_per_trial_id (st : OptunaSearch)
    (t₁ t₂ : String) (study : Study)
    (hsp : spaceTruthy st.space = true)
    (hstudy : st.ot_study = some study)
    (hreg : st.ot_trials = [])
    (hne : t₂ ≠ t₁) :
    ((st.suggest t₁).2.suggest t₁).2.ot_trials.length = 1 ∧
    (∃ h₁ h₂,
      ((((st.suggest t₁).2.suggest t₁).2.suggest t₂).2.ot_trials.lookup t₁ =
        some h₁) ∧
      ((((st.suggest t₁).2.suggest t₁).2.suggest t₂).2.ot_trials.lookup t₂ =
        some h₂) ∧
      h₁ ≠ h₂) := by
  obtain ⟨a1, a2, a3, a4⟩ :=
    suggest_new_trial st t₁ study hsp (by rw [hreg]; rfl) hstudy
  rw [hreg] at a1
  simp only [List.nil_append] at a1
  have hl₁ : (st.suggest t₁).2.ot_trials.lookup t₁ =
      some st.storage.nextTrialId := by
    rw [a1]; simp [List.lookup_cons]
  obtain ⟨b1, b2, b3, b4, -, -⟩ :=
    suggest_existing_trial (st.suggest t₁).2 t₁ st.storage.nextTrialId
      (by rw [a4, hsp]) hl₁
  constructor
  · rw [b1, a1]; rfl
  · have hbeq : (t₂ == t₁) = false := beq_eq_false_iff_ne.mpr hne
    have hl₂ : ((st.suggest t₁).2.suggest t₁).2.ot_trials.lookup t₂ = none := by
      rw [b1, a1]
      simp [List.lookup_cons, hbeq]
    obtain ⟨c1, c2, c3, c4⟩ :=
      suggest_new_trial ((st.suggest t₁).2.suggest t₁).2 t₂ study
        (by rw [b4, a4, hsp]) hl₂ (by rw [b3, a3, hstudy])
    have hn2 : ((st.suggest t₁).2.suggest t₁).2.storage.nextTrialId =
        st.storage.nextTrialId + 1 := by rw [b2]; exact a2
    refine ⟨st.storage.nextTrialId, st.storage.nextTrialId + 1, ?_, ?_, ?_⟩
    · rw [c1, b1, a1, hn2]
      simp [List.lookup_cons]
    · rw [c1, b1, a1, hn2]
      simp [List.lookup_cons, hbeq]
    · omega

/-- Witness for C4: a ready searcher, two `suggest("t1")` calls leave one
registry entry, and a `suggest("t2")` call gets a different handle. -/
theorem suggest_one_handle_per_trial_id_witness :
    ((((readySearcher [.suggest_uniform "a" 6 8] "loss" [7]).suggest
      "t1").2.suggest "t1").2.ot_trials.length = 1) ∧
    (∃ h₁ h₂,
      (((((readySearcher [.suggest_uniform "a" 6 8] "loss" [7]).suggest
        "t1").2.suggest "t1").2.suggest "t2").2.ot_trials.lookup "t1" =
          some h₁) ∧
      (((((readySearcher [.suggest_uniform "a" 6 8] "loss" [7]).suggest
        "t1").2.suggest "t1").2.suggest "t2").2.ot_trials.lookup "t2" =
          some h₂) ∧
      h₁ ≠ h₂) :=
  suggest_one_handle_per_trial_id
    (readySearcher [.suggest_uniform "a" 6 8] "loss" [7]) "t1" "t2"
    ⟨0, "minimize"⟩ rfl rfl rfl (by decide)

/-- C10: `suggest` on an already-registered trial id does not return a cached
result: the registry and storage are untouched, every request of the space is
replayed in order against the same existing handle (the sampler's query log
grows by exactly the space, and its draw counter advances by the space's
length), and the returned flat mapping carries the space's parameter names
in order. -/
theorem suggest_replays_space_for_registered_trial (st : OptunaSearch)
    (trial_id : String) (space : List SuggestionRequest) (handle : ℕ)
    (hspace : st.space = some space) (hne : space.isEmpty = false)
    (hreg : st.ot_trials.lookup trial_id = some handle) :
    (st.suggest trial_id).2.ot_trials = st.ot_trials ∧
    (st.suggest trial_id).2.storage = st.storage ∧
    (st.suggest trial_id).2.sampler.queryLog =
      st.sampler.queryLog ++ space.map (fun req => (handle, req)) ∧
    (st.suggest trial_id).2.sampler.counter =
      st.sampler.counter + space.length ∧
    (∃ ps, (st.suggest trial_id).1 = .ok ps ∧
      ps.map Prod.fst = space.map SuggestionRequest.name) := by
  have hsp : spaceTruthy st.space = true := by
    rw [hspace]
    simp [spaceTruthy, hne]
  obtain ⟨e1, e2, e3, e4, e5, e6⟩ :=
    suggest_existing_trial st trial_id handle hsp hreg
  rw [hspace] at e5 e6
  simp only [Option.getD_some] at e5 e6
  obtain ⟨f1, f2, f3, f4⟩ := foldl_replayStep handle space [] st.sampler
  refine ⟨e1, e2, ?_, ?_, ?_⟩
  · rw [e5]; exact f3
  · rw [e5]; exact f2
  · exact ⟨_, e6, by simpa using f1⟩

/-- Witness for C10: a second `suggest("t1")` on the registered searcher
replays both requests against handle 0 and returns the names a, b. -/
theorem suggest_replays_space_for_registered_trial_witness :
    ((registeredSearcher.suggest "t1").2.ot_trials =
      registeredSearcher.ot_trials) ∧
    ((registeredSearcher.suggest "t1").2.storage =
      registeredSearcher.storage) ∧
    ((registeredSearcher.suggest "t1").2.sampler.queryLog =
      registeredSearcher.sampler.queryLog ++
        [.suggest_uniform "a" 6 8, .suggest_uniform "b" 10 20].map
          (fun req => (0, req))) ∧
    ((registeredSearcher.suggest "t1").2.sampler.counter =
      registeredSearcher.sampler.counter +
        ([.suggest_uniform "a" 6 8, .suggest_uniform "b" 10 20] :
          List SuggestionRequest).length) ∧
    (∃ ps, (registeredSearcher.suggest "t1").1 = .ok ps ∧
      ps.map Prod.fst =
        [.suggest_uniform "a" 6 8, .suggest_uniform "b" 10 20].map
          SuggestionRequest.name) :=
  suggest_replays_space_for_registered_trial registeredSearcher "t1"
    [.suggest_uniform "a" 6 8, .suggest_uniform "b" 10 20] 0 rfl rfl
    (by decide)

/-- C9: `on_trial_complete` behaves identically whatever the `error` flag is
(the flag is never read), and for a registered trial with a present result
mapping it reports success and marks the trial `COMPLETE` in storage with
the value looked up under the configured metric key. -/
theorem on_trial_complete_ignores_error_flag (st : OptunaSearch)
    (trial_id : String) (result : Option (List (String × ℚ))) (b₁ b₂ : Bool) :
    st.on_trial_complete trial_id result b₁ =
      st.on_trial_complete trial_id result b₂ ∧
    (∀ handle res, st.ot_trials.lookup trial_id = some handle →
      result = some res →
      (st.on_trial_complete trial_id result b₁).1 = .ok () ∧
      (st.on_trial_complete trial_id result b₁).2.storage.trialState handle =
        some .complete ∧
      (st.on_trial_complete trial_id result b₁).2.storage.trialValue handle =
        some (getMetric st.metric res)) := by
  refine ⟨rfl, fun handle res hreg hres => ?_⟩
  subst hres
  unfold OptunaSearch.on_trial_complete
  rw [hreg]
  refine ⟨rfl, ?_, ?_⟩ <;>
    simp [Storage.set_trial_state, Storage.set_trial_value, Storage.trialState,
      Storage.trialValue, List.lookup_cons]

/-- Witness for C9: completing the registered trial with `{loss: 4}` behaves
the same for both flag values and records value 4 with state COMPLETE. -/
theorem on_trial_complete_ignores_error_flag_witness :
    (registeredSearcher.on_trial_complete "t1" (some [("loss", 4)]) true =
      registeredSearcher.on_trial_complete "t1" (some [("loss", 4)]) false) ∧
    (registeredSearcher.on_trial_complete "t1"
      (some [("loss", 4)]) true).1 = .ok () ∧
    (registeredSearcher.on_trial_complete "t1"
      (some [("loss", 4)]) true).2.storage.trialState 0 = some .complete ∧
    (registeredSearcher.on_trial_complete "t1"
      (some [("loss", 4)]) true).2.storage.trialValue 0 = some (some 4) := by
  obtain ⟨h1, h2⟩ := on_trial_complete_ignores_error_flag registeredSearcher
    "t1" (some [("loss", 4)]) true false
  obtain ⟨g1, g2, g3⟩ := h2 0 [("loss", 4)] (by decide) rfl
  refine ⟨h1, g1, g2, ?_⟩
  rw [g3]
  rfl

/-- C2 failing input (code bug): completing a registered trial with an absent
result (`result=None`, the parameter's own default) raises an
`AttributeError` from `result.get` instead of marking the trial terminal
with no value as the spec (and the `Optional` signature) prescribe. -/
theorem on_trial_complete_none_result_raises :
    registeredSearcher.on_trial_complete "t1" none false =
      (.error .attributeError, registeredSearcher) := by
  unfold OptunaSearch.on_trial_complete
  have h : registeredSearcher.ot_trials.lookup "t1" = some 0 := by decide
  rw [h]

end RayOptuna
